import Mathlib

/-!
Shallow embedding of src/main.py: an interactive image-comparison
program.  Pure functions (URL and extension validation, configuration)
are translated directly; the effectful parts (HTTP download, model
call, file removal, console I/O) are modelled as a trace of events over
an abstract world supplying the outcome of each external call.
-/

namespace ImageCompare

/-! ## Model of urllib.parse.urlparse (scheme and netloc only)

src/main.py only reads result.scheme and result.netloc, so the model
covers exactly those two components, following CPython's urlsplit:
a scheme is a leading, nonempty, letter-initiated run of scheme
characters ending at the first colon; a netloc is present when the
remainder starts with two slashes and extends to the next slash,
question mark or hash. -/

/-- Characters allowed in a URL scheme (CPython scheme_chars). -/
def isSchemeChar (c : Char) : Bool :=
  c.isAlpha || c.isDigit || c == '+' || c == '-' || c == '.'

/-- Split a character list at the first colon, returning the parts
before and after it, or none when there is no colon. -/
def splitAtColon : List Char → Option (List Char × List Char)
  | [] => none
  | c :: cs =>
    if c == ':' then some ([], cs)
    else
      match splitAtColon cs with
      | some (a, b) => some (c :: a, b)
      | none => none

/-- Extract the (lowercased) scheme and the remaining characters; when
the candidate scheme is empty, does not start with a letter, or holds a
character outside scheme_chars, the scheme is empty and the whole
input is left for netloc parsing. -/
def schemeOf (cs : List Char) : List Char × List Char :=
  match splitAtColon cs with
  | some (before, after) =>
    match before with
    | [] => ([], cs)
    | c0 :: _ =>
      if c0.isAlpha && before.all isSchemeChar then
        (before.map Char.toLower, after)
      else ([], cs)
  | none => ([], cs)

/-- Extract the netloc from what follows the scheme: present only after
a leading double slash, ending before the next slash, question mark or
hash. -/
def netlocOf (cs : List Char) : List Char :=
  match cs with
  | '/' :: '/' :: rest => rest.takeWhile (fun c => !(c == '/' || c == '?' || c == '#'))
  | _ => []

/-- The two components of a parsed URL that the program reads. -/
structure UrlParts where
  scheme : String
  netloc : String
deriving DecidableEq

/-- Model of urllib.parse.urlparse restricted to scheme and netloc. -/
def urlparse (s : String) : UrlParts :=
  let p := schemeOf s.data
  { scheme := String.mk p.1, netloc := String.mk (netlocOf p.2) }

/-- is_valid_url from src/main.py: all([result.scheme, result.netloc]),
i.e. both components are (truthy) nonempty strings. -/
def is_valid_url (url_string : String) : Bool :=
  !(urlparse url_string).scheme.isEmpty && !(urlparse url_string).netloc.isEmpty

/-! ## Model of os.path.splitext (posix) and validate_file -/

/-- The basename: the characters after the last slash. -/
def afterLastSep (cs : List Char) : List Char :=
  cs.foldl (fun acc c => if c == '/' then [] else acc ++ [c]) []

/-- The extension of a basename: everything from the last dot on,
provided some earlier character of the basename is not a dot (so
leading-dot names such as .bashrc have no extension). -/
def extOfBase (base : List Char) : List Char :=
  let rev := base.reverse
  match rev.dropWhile (fun c => !(c == '.')) with
  | [] => []
  | _ :: beforeRev =>
    if beforeRev.any (fun c => !(c == '.')) then
      '.' :: (rev.takeWhile (fun c => !(c == '.'))).reverse
    else []

/-- Model of os.path.splitext: root and extension. -/
def splitext (p : String) : String × String :=
  let ext := extOfBase (afterLastSep p.data)
  (String.mk (p.data.take (p.data.length - ext.length)), String.mk ext)

/-- str.lower, character by character (the program only compares the
result against ASCII literals). -/
def lowerStr (s : String) : String :=
  String.mk (s.data.map Char.toLower)

/-- str.strip with no argument: remove leading and trailing
whitespace. -/
def stripStr (s : String) : String :=
  String.mk (((s.data.dropWhile Char.isWhitespace).reverse.dropWhile
    Char.isWhitespace).reverse)

/-- The allow-list of image extensions from validate_file. -/
def allowed_extensions : List String := [".jpg", ".jpeg", ".png", ".gif"]

/-- validate_file from src/main.py: the lowercased extension must be in
the allow-list. -/
def validate_file (filename : String) : Bool :=
  allowed_extensions.contains (lowerStr (splitext filename).2)

/-! ## Model of the effectful parts

External calls are abstracted into a `World`: the process environment,
whether API setup raises, the outcome of an HTTP GET per URL, the
outcome of the analysis call, and the outcome of each file removal.
Running a piece of the program produces a list of observable events
(console prints, network calls, file creations and deletions, model
session construction) together with its result. -/

/-- The errors download_and_validate_image can raise: the two
ValueError messages and an HTTP/network failure from requests. -/
inductive DLErr where
  | invalidURL
  | invalidExt
  | httpError (msg : String)
deriving DecidableEq

deriving instance DecidableEq for Except

/-- str(e) for each download error, as printed by the driver. -/
def dlErrMsg : DLErr → String
  | .invalidURL => "Invalid URL provided"
  | .invalidExt => "Invalid file extension"
  | .httpError m => m

/-- The configured model session from setup_api: model identifier plus
the generation_config decoding parameters, and the credential read from
the environment. -/
structure GenerativeModel where
  api_key : Option String
  model_name : String
  temperature : ℚ
  top_p : ℚ
  top_k : ℕ
  max_output_tokens : ℕ
deriving DecidableEq

/-- The abstract outside world: environment variables (after
load_dotenv), whether setup raises, the per-URL HTTP outcome (some msg
is a raised error, none is success), the analysis outcome, and the
per-path os.remove outcome. -/
structure World where
  env : String → Option String
  setupErr : Option String
  http : String → Option String
  analysis : Except String String
  removeErr : String → Option String

/-- Observable events of a run. -/
inductive Ev where
  | print (s : String)
  | networkCall (url : String)
  | fileCreated (f : String)
  | fileDeleted (f : String)
  | sessionCreated
deriving DecidableEq

/-- setup_api from src/main.py: load_dotenv and os.getenv are modelled
by reading the world environment; the session is bound to the fixed
model identifier and generation_config literals. -/
def setup_api (w : World) : GenerativeModel :=
  ⟨w.env "API_KEY", "gemini-1.5-flash", 0.4, 0.99, 0, 4096⟩

/-- download_file_from_url from src/main.py: one streaming GET; on an
error status raise_for_status raises before the file is opened, else
the body is written to filename and the filename returned. -/
def download_file_from_url (w : World) (url filename : String) :
    List Ev × Except DLErr String :=
  match w.http url with
  | some e => ([Ev.networkCall url], Except.error (DLErr.httpError e))
  | none => ([Ev.networkCall url, Ev.fileCreated filename], Except.ok filename)

/-- download_and_validate_image from src/main.py: URL check, then
extension check, then delegate to the downloader. -/
def download_and_validate_image (w : World) (url filename : String) :
    List Ev × Except DLErr String :=
  if !(is_valid_url url) then ([], Except.error DLErr.invalidURL)
  else if !(validate_file filename) then ([], Except.error DLErr.invalidExt)
  else download_file_from_url w url filename

/-! ## The interactive driver (main) -/

/-- Result of one of the two input loops: the user typed quit (exit()
raises SystemExit), input was exhausted (input() raises EOFError, which
escapes to the top-level handler), or a download succeeded. -/
inductive LoopRes where
  | exited
  | eofErr
  | success (path : String) (rest : List String)
deriving DecidableEq

/-- str(EOFError()) as raised by input() at end of input. -/
def eofMsg : String := "EOF when reading a line"

def setupMsg : String := "Setting up API..."
def prompt1 : String := "Enter the first image URL (or \x27quit\x27 to exit): "
def prompt2 : String := "Enter the second image URL (or \x27quit\x27 to exit): "
def saved1 : String := "First image saved as: "
def saved2 : String := "Second image saved as: "
def analyzingMsg : String := "\nAnalyzing image similarities..."

/-- One while-True input loop of main: prompt, read a line, strip it;
on quit call exit(); otherwise try the download, and on any exception
print the error and loop again on the remaining input. -/
def inputLoop (w : World) (promptMsg savedMsg filename : String) :
    List String → List Ev × LoopRes
  | [] => ([Ev.print promptMsg], LoopRes.eofErr)
  | line :: rest =>
    let url := stripStr line
    if lowerStr url == "quit" then
      ([Ev.print promptMsg], LoopRes.exited)
    else
      match download_and_validate_image w url filename with
      | (evs, Except.ok path) =>
        (Ev.print promptMsg :: evs ++ [Ev.print (savedMsg ++ path)],
         LoopRes.success path rest)
      | (evs, Except.error e) =>
        (Ev.print promptMsg :: evs
           ++ Ev.print ("Error: " ++ dlErrMsg e)
             :: (inputLoop w promptMsg savedMsg filename rest).1,
         (inputLoop w promptMsg savedMsg filename rest).2)

/-- How the process terminates: main returns normally, or exit()
propagates SystemExit out of main. Both give exit status 0. -/
inductive Term where
  | returned
  | sysExit
deriving DecidableEq

/-- Process exit status: normal in both termination modes, since
SystemExit from a bare exit() carries code 0 and the top-level handler
returns normally. -/
def exitCode : Term → ℕ := fun _ => 0

/-- The tail of main after both downloads: print the analyzing banner,
call the model, print the analysis, then remove both files; any raised
error stops this phase and escapes to the top-level handler. -/
def analysisPhase (w : World) (path1 path2 : String) : List Ev × Term :=
  match w.analysis with
  | Except.error e =>
    ([Ev.print analyzingMsg, Ev.print ("Error: " ++ e)], Term.returned)
  | Except.ok text =>
    let ev1 := [Ev.print analyzingMsg, Ev.print "\nImage Analysis:", Ev.print text]
    match w.removeErr path1 with
    | some e => (ev1 ++ [Ev.print ("Error: " ++ e)], Term.returned)
    | none =>
      match w.removeErr path2 with
      | some e =>
        (ev1 ++ [Ev.fileDeleted path1, Ev.print ("Error: " ++ e)], Term.returned)
      | none =>
        (ev1 ++ [Ev.fileDeleted path1, Ev.fileDeleted path2], Term.returned)

/-- The body of main's try block after setup succeeded: the two input
loops, then the analysis and cleanup phase; an EOFError from input()
escapes to the top-level handler, which prints it. -/
def driverLoops (w : World) (inputs : List String) : List Ev × Term :=
  match inputLoop w prompt1 saved1 "image1.jpg" inputs with
  | (evsA, LoopRes.exited) => (evsA, Term.sysExit)
  | (evsA, LoopRes.eofErr) =>
    (evsA ++ [Ev.print ("Error: " ++ eofMsg)], Term.returned)
  | (evsA, LoopRes.success path1 rest) =>
    match inputLoop w prompt2 saved2 "image2.jpg" rest with
    | (evsB, LoopRes.exited) => (evsA ++ evsB, Term.sysExit)
    | (evsB, LoopRes.eofErr) =>
      (evsA ++ evsB ++ [Ev.print ("Error: " ++ eofMsg)], Term.returned)
    | (evsB, LoopRes.success path2 _) =>
      (evsA ++ evsB ++ (analysisPhase w path1 path2).1,
       (analysisPhase w path1 path2).2)

/-- main from src/main.py: print the setup banner, run setup (inside
the try block), then the driver; the except clause prints any escaping
Exception and returns, while SystemExit from exit() passes through. -/
def mainRun (w : World) (inputs : List String) : List Ev × Term :=
  match w.setupErr with
  | some e => ([Ev.print setupMsg, Ev.print ("Error: " ++ e)], Term.returned)
  | none =>
    (Ev.print setupMsg :: Ev.sessionCreated :: (driverLoops w inputs).1,
     (driverLoops w inputs).2)

/-- A concrete world where every external call succeeds. -/
def sampleWorld : World :=
  ⟨fun _ => some "test-key", none, fun _ => none,
   Except.ok "The images are similar.", fun _ => none⟩

/-- A concrete world where API setup raises. -/
def setupFailWorld : World :=
  ⟨fun _ => none, some "Invalid API key", fun _ => none,
   Except.error "unreachable", fun _ => none⟩

/-- A concrete world where the analysis call raises. -/
def analysisFailWorld : World :=
  ⟨fun _ => some "test-key", none, fun _ => none,
   Except.error "quota exceeded", fun _ => none⟩

/-! ## Helper lemmas -/

/-- The four possible outcomes of download_and_validate_image. -/
lemma dvi_cases (w : World) (url fn : String) :
    download_and_validate_image w url fn = ([], Except.error DLErr.invalidURL)
  ∨ (validate_file fn = false
      ∧ download_and_validate_image w url fn = ([], Except.error DLErr.invalidExt))
  ∨ (∃ e, w.http url = some e
      ∧ download_and_validate_image w url fn
          = ([Ev.networkCall url], Except.error (DLErr.httpError e)))
  ∨ (w.http url = none
      ∧ download_and_validate_image w url fn
          = ([Ev.networkCall url, Ev.fileCreated fn], Except.ok fn)) := by
  unfold download_and_validate_image download_file_from_url
  by_cases h1 : is_valid_url url
  · by_cases h2 : validate_file fn
    · cases h3 : w.http url with
      | some e => exact Or.inr (Or.inr (Or.inl ⟨e, rfl, by simp [h1, h2]⟩))
      | none => exact Or.inr (Or.inr (Or.inr ⟨rfl, by simp [h1, h2]⟩))
    · exact Or.inr (Or.inl ⟨by simpa using h2, by simp [h1, h2]⟩)
  · exact Or.inl (by simp [h1])

/-- Events emitted by download_and_validate_image are network calls or
file creations only. -/
lemma dvi_events (w : World) (url fn : String) :
    ∀ ev ∈ (download_and_validate_image w url fn).1,
      (∃ u, ev = Ev.networkCall u) ∨ ∃ f, ev = Ev.fileCreated f := by
  intro ev hev
  rcases dvi_cases w url fn with h | ⟨-, h⟩ | ⟨e, -, h⟩ | ⟨-, h⟩ <;>
    rw [h] at hev <;> simp at hev
  · exact Or.inl ⟨url, hev⟩
  · rcases hev with hev | hev
    · exact Or.inl ⟨url, hev⟩
    · exact Or.inr ⟨fn, hev⟩

/-- A file created by download_and_validate_image is the requested
filename. -/
lemma dvi_fileCreated (w : World) (url fn f : String)
    (h : Ev.fileCreated f ∈ (download_and_validate_image w url fn).1) :
    f = fn := by
  rcases dvi_cases w url fn with hc | ⟨-, hc⟩ | ⟨e, -, hc⟩ | ⟨-, hc⟩ <;>
    rw [hc] at h <;> simp at h
  exact h

/-- When download_and_validate_image succeeds, the result is the
requested filename and the file was created. -/
lemma dvi_ok (w : World) (url fn : String) (evs : List Ev) (p : String)
    (h : download_and_validate_image w url fn = (evs, Except.ok p)) :
    p = fn ∧ Ev.fileCreated fn ∈ evs := by
  rcases dvi_cases w url fn with hc | ⟨-, hc⟩ | ⟨e, -, hc⟩ | ⟨-, hc⟩ <;>
    rw [hc] at h
  · simp at h
  · simp at h
  · simp at h
  · injection h with h1 h2
    injection h2 with h3
    exact ⟨h3.symm, by rw [← h1]; simp⟩

/-- Unfolding: a quit line exits the input loop. -/
lemma inputLoop_cons_quit (w : World) (pm sm fn line : String) (rest : List String)
    (h : lowerStr (stripStr line) = "quit") :
    inputLoop w pm sm fn (line :: rest) = ([Ev.print pm], LoopRes.exited) := by
  simp [inputLoop, h]

/-- Unfolding: a successful download ends the input loop. -/
lemma inputLoop_cons_ok (w : World) (pm sm fn line : String) (rest : List String)
    (evs : List Ev) (p : String)
    (hq : lowerStr (stripStr line) ≠ "quit")
    (h : download_and_validate_image w (stripStr line) fn = (evs, Except.ok p)) :
    inputLoop w pm sm fn (line :: rest)
      = (Ev.print pm :: evs ++ [Ev.print (sm ++ p)], LoopRes.success p rest) := by
  simp [inputLoop, beq_iff_eq, hq, h]

/-- Unfolding: a failed attempt prints the error and re-enters the same
loop on the remaining input. -/
lemma inputLoop_cons_err (w : World) (pm sm fn line : String) (rest : List String)
    (evs : List Ev) (e : DLErr)
    (hq : lowerStr (stripStr line) ≠ "quit")
    (h : download_and_validate_image w (stripStr line) fn = (evs, Except.error e)) :
    inputLoop w pm sm fn (line :: rest)
      = (Ev.print pm :: evs
           ++ Ev.print ("Error: " ++ dlErrMsg e) :: (inputLoop w pm sm fn rest).1,
         (inputLoop w pm sm fn rest).2) := by
  simp [inputLoop, beq_iff_eq, hq, h]

/-- Events emitted by an input loop are prints, network calls or file
creations only. -/
lemma inputLoop_events (w : World) (pm sm fn : String) (inputs : List String) :
    ∀ ev ∈ (inputLoop w pm sm fn inputs).1,
      (∃ s, ev = Ev.print s) ∨ (∃ u, ev = Ev.networkCall u)
        ∨ ∃ f, ev = Ev.fileCreated f := by
  induction inputs with
  | nil =>
    intro ev hev
    simp [inputLoop] at hev
    exact Or.inl ⟨pm, hev⟩
  | cons line rest ih =>
    intro ev hev
    by_cases hq : lowerStr (stripStr line) = "quit"
    · rw [inputLoop_cons_quit w pm sm fn line rest hq] at hev
      simp at hev
      exact Or.inl ⟨pm, hev⟩
    · rcases hdv : download_and_validate_image w (stripStr line) fn with ⟨evs, res⟩
      cases res with
      | ok p =>
        rw [inputLoop_cons_ok w pm sm fn line rest evs p hq hdv] at hev
        simp at hev
        rcases hev with hev | hev | hev
        · exact Or.inl ⟨pm, hev⟩
        · have := dvi_events w (stripStr line) fn ev (by rw [hdv]; exact hev)
          rcases this with h1 | h1
          · exact Or.inr (Or.inl h1)
          · exact Or.inr (Or.inr h1)
        · exact Or.inl ⟨sm ++ p, hev⟩
      | error e =>
        rw [inputLoop_cons_err w pm sm fn line rest evs e hq hdv] at hev
        simp at hev
        rcases hev with hev | hev | hev | hev
        · exact Or.inl ⟨pm, hev⟩
        · have := dvi_events w (stripStr line) fn ev (by rw [hdv]; exact hev)
          rcases this with h1 | h1
          · exact Or.inr (Or.inl h1)
          · exact Or.inr (Or.inr h1)
        · exact Or.inl ⟨"Error: " ++ dlErrMsg e, hev⟩
        · exact ih ev hev

/-- No file deletion happens inside an input loop. -/
lemma inputLoop_no_fileDeleted (w : World) (pm sm fn : String)
    (inputs : List String) (f : String) :
    Ev.fileDeleted f ∉ (inputLoop w pm sm fn inputs).1 := by
  intro h
  rcases inputLoop_events w pm sm fn inputs _ h with ⟨s, hs⟩ | ⟨u, hs⟩ | ⟨g, hs⟩ <;>
    simp at hs

/-- No model session is constructed inside an input loop. -/
lemma inputLoop_no_sessionCreated (w : World) (pm sm fn : String)
    (inputs : List String) :
    Ev.sessionCreated ∉ (inputLoop w pm sm fn inputs).1 := by
  intro h
  rcases inputLoop_events w pm sm fn inputs _ h with ⟨s, hs⟩ | ⟨u, hs⟩ | ⟨g, hs⟩ <;>
    simp at hs

/-- A file created inside an input loop is the loop's filename. -/
lemma inputLoop_fileCreated (w : World) (pm sm fn : String)
    (inputs : List String) (f : String)
    (h : Ev.fileCreated f ∈ (inputLoop w pm sm fn inputs).1) :
    f = fn := by
  induction inputs with
  | nil => simp [inputLoop] at h
  | cons line rest ih =>
    by_cases hq : lowerStr (stripStr line) = "quit"
    · rw [inputLoop_cons_quit w pm sm fn line rest hq] at h
      simp at h
    · rcases hdv : download_and_validate_image w (stripStr line) fn with ⟨evs, res⟩
      cases res with
      | ok p =>
        rw [inputLoop_cons_ok w pm sm fn line rest evs p hq hdv] at h
        rcases List.mem_cons.mp h with h | h
        · exact absurd h (by simp)
        · rcases List.mem_append.mp h with h | h
          · exact dvi_fileCreated w (stripStr line) fn f (by rw [hdv]; exact h)
          · exact absurd (List.mem_singleton.mp h) (by simp)
      | error e =>
        rw [inputLoop_cons_err w pm sm fn line rest evs e hq hdv] at h
        rcases List.mem_cons.mp h with h | h
        · exact absurd h (by simp)
        · rcases List.mem_append.mp h with h | h
          · exact dvi_fileCreated w (stripStr line) fn f (by rw [hdv]; exact h)
          · rcases List.mem_cons.mp h with h | h
            · exact absurd h (by simp)
            · exact ih h

/-- A successful input loop returns the loop's filename and created it. -/
lemma inputLoop_success (w : World) (pm sm fn : String) (inputs : List String)
    (evs : List Ev) (p : String) (rest : List String)
    (h : inputLoop w pm sm fn inputs = (evs, LoopRes.success p rest)) :
    p = fn ∧ Ev.fileCreated fn ∈ evs := by
  induction inputs generalizing evs with
  | nil => simp [inputLoop] at h
  | cons line tl ih =>
    by_cases hq : lowerStr (stripStr line) = "quit"
    · rw [inputLoop_cons_quit w pm sm fn line tl hq] at h
      simp at h
    · rcases hdv : download_and_validate_image w (stripStr line) fn with ⟨evsD, res⟩
      cases res with
      | ok q =>
        rw [inputLoop_cons_ok w pm sm fn line tl evsD q hq hdv] at h
        injection h with h1 h2
        injection h2 with h3 h4
        rcases dvi_ok w (stripStr line) fn evsD q hdv with ⟨hpq, hcr⟩
        constructor
        · rw [← h3]
          exact hpq
        · rw [← h1]
          simp [hcr]
      | error e =>
        rw [inputLoop_cons_err w pm sm fn line tl evsD e hq hdv] at h
        injection h with h1 h2
        have hTl : inputLoop w pm sm fn tl
            = ((inputLoop w pm sm fn tl).1, LoopRes.success p rest) := by
          rw [← h2]
        rcases ih (inputLoop w pm sm fn tl).1 hTl with ⟨hp, hc⟩
        exact ⟨hp, by rw [← h1]; simp [hc]⟩

/-- Events of the analysis and cleanup phase are prints and file
deletions only. -/
lemma analysisPhase_events (w : World) (p1 p2 : String) :
    ∀ ev ∈ (analysisPhase w p1 p2).1,
      (∃ s, ev = Ev.print s) ∨ ∃ f, ev = Ev.fileDeleted f := by
  intro ev hev
  unfold analysisPhase at hev
  rcases ha : w.analysis with e | text <;> simp [ha] at hev
  · rcases hev with hev | hev
    · exact Or.inl ⟨analyzingMsg, hev⟩
    · exact Or.inl ⟨"Error: " ++ e, hev⟩
  · rcases hw1 : w.removeErr p1 with _ | e1 <;> simp [hw1] at hev
    · rcases hw2 : w.removeErr p2 with _ | e2 <;> simp [hw2] at hev
      · rcases hev with hev | hev | hev | hev | hev
        · exact Or.inl ⟨analyzingMsg, hev⟩
        · exact Or.inl ⟨"\nImage Analysis:", hev⟩
        · exact Or.inl ⟨text, hev⟩
        · exact Or.inr ⟨p1, hev⟩
        · exact Or.inr ⟨p2, hev⟩
      · rcases hev with hev | hev | hev | hev | hev
        · exact Or.inl ⟨analyzingMsg, hev⟩
        · exact Or.inl ⟨"\nImage Analysis:", hev⟩
        · exact Or.inl ⟨text, hev⟩
        · exact Or.inr ⟨p1, hev⟩
        · exact Or.inl ⟨"Error: " ++ e2, hev⟩
    · rcases hev with hev | hev | hev | hev
      · exact Or.inl ⟨analyzingMsg, hev⟩
      · exact Or.inl ⟨"\nImage Analysis:", hev⟩
      · exact Or.inl ⟨text, hev⟩
      · exact Or.inl ⟨"Error: " ++ e1, hev⟩

/-- Unfolding: driver behaviour when API setup raises. -/
lemma mainRun_setup_err (w : World) (inputs : List String) (e : String)
    (h : w.setupErr = some e) :
    mainRun w inputs
      = ([Ev.print setupMsg, Ev.print ("Error: " ++ e)], Term.returned) := by
  simp [mainRun, h]

/-- Unfolding: driver behaviour when API setup succeeds. -/
lemma mainRun_setup_ok (w : World) (inputs : List String)
    (h : w.setupErr = none) :
    mainRun w inputs
      = (Ev.print setupMsg :: Ev.sessionCreated :: (driverLoops w inputs).1,
         (driverLoops w inputs).2) := by
  simp [mainRun, h]

/-- Unfolding: driver loops when the first loop exits on quit. -/
lemma driverLoops_quit1 (w : World) (inputs : List String) (evsA : List Ev)
    (h : inputLoop w prompt1 saved1 "image1.jpg" inputs = (evsA, LoopRes.exited)) :
    driverLoops w inputs = (evsA, Term.sysExit) := by
  simp [driverLoops, h]

/-- Unfolding: driver loops when the second loop exits on quit. -/
lemma driverLoops_quit2 (w : World) (inputs : List String)
    (evsA evsB : List Ev) (p1 : String) (rest : List String)
    (h1 : inputLoop w prompt1 saved1 "image1.jpg" inputs
            = (evsA, LoopRes.success p1 rest))
    (h2 : inputLoop w prompt2 saved2 "image2.jpg" rest = (evsB, LoopRes.exited)) :
    driverLoops w inputs = (evsA ++ evsB, Term.sysExit) := by
  simp [driverLoops, h1, h2]

/-- Unfolding: driver loops when both downloads succeed. -/
lemma driverLoops_success (w : World) (inputs : List String)
    (evsA evsB : List Ev) (p1 p2 : String) (rest1 rest2 : List String)
    (h1 : inputLoop w prompt1 saved1 "image1.jpg" inputs
            = (evsA, LoopRes.success p1 rest1))
    (h2 : inputLoop w prompt2 saved2 "image2.jpg" rest1
            = (evsB, LoopRes.success p2 rest2)) :
    driverLoops w inputs
      = (evsA ++ evsB ++ (analysisPhase w p1 p2).1, (analysisPhase w p1 p2).2) := by
  simp [driverLoops, h1, h2]

/-- Unfolding: driver loops when input runs out in the first loop. -/
lemma driverLoops_eof1 (w : World) (inputs : List String) (evsA : List Ev)
    (h : inputLoop w prompt1 saved1 "image1.jpg" inputs = (evsA, LoopRes.eofErr)) :
    driverLoops w inputs
      = (evsA ++ [Ev.print ("Error: " ++ eofMsg)], Term.returned) := by
  simp [driverLoops, h]

/-- Unfolding: driver loops when input runs out in the second loop. -/
lemma driverLoops_eof2 (w : World) (inputs : List String)
    (evsA evsB : List Ev) (p1 : String) (rest : List String)
    (h1 : inputLoop w prompt1 saved1 "image1.jpg" inputs
            = (evsA, LoopRes.success p1 rest))
    (h2 : inputLoop w prompt2 saved2 "image2.jpg" rest = (evsB, LoopRes.eofErr)) :
    driverLoops w inputs
      = (evsA ++ evsB ++ [Ev.print ("Error: " ++ eofMsg)], Term.returned) := by
  simp [driverLoops, h1, h2]

/-- Any file created by the driver loops is one of the two fixed
filenames. -/
lemma driverLoops_fileCreated (w : World) (inputs : List String) (f : String)
    (h : Ev.fileCreated f ∈ (driverLoops w inputs).1) :
    f = "image1.jpg" ∨ f = "image2.jpg" := by
  rcases hL1 : inputLoop w prompt1 saved1 "image1.jpg" inputs with ⟨evsA, r1⟩
  have mem1 : ∀ g, Ev.fileCreated g ∈ evsA → g = "image1.jpg" := fun g hg =>
    inputLoop_fileCreated w prompt1 saved1 "image1.jpg" inputs g (by rw [hL1]; exact hg)
  cases r1 with
  | exited =>
    rw [driverLoops_quit1 w inputs evsA hL1] at h
    exact Or.inl (mem1 f h)
  | eofErr =>
    rw [driverLoops_eof1 w inputs evsA hL1] at h
    rcases List.mem_append.mp h with h | h
    · exact Or.inl (mem1 f h)
    · exact absurd (List.mem_singleton.mp h) (by simp)
  | success p1 rest =>
    rcases hL2 : inputLoop w prompt2 saved2 "image2.jpg" rest with ⟨evsB, r2⟩
    have mem2 : ∀ g, Ev.fileCreated g ∈ evsB → g = "image2.jpg" := fun g hg =>
      inputLoop_fileCreated w prompt2 saved2 "image2.jpg" rest g (by rw [hL2]; exact hg)
    cases r2 with
    | exited =>
      rw [driverLoops_quit2 w inputs evsA evsB p1 rest hL1 hL2] at h
      rcases List.mem_append.mp h with h | h
      · exact Or.inl (mem1 f h)
      · exact Or.inr (mem2 f h)
    | eofErr =>
      rw [driverLoops_eof2 w inputs evsA evsB p1 rest hL1 hL2] at h
      rcases List.mem_append.mp h with h | h
      · rcases List.mem_append.mp h with h | h
        · exact Or.inl (mem1 f h)
        · exact Or.inr (mem2 f h)
      · exact absurd (List.mem_singleton.mp h) (by simp)
    | success p2 rest2 =>
      rw [driverLoops_success w inputs evsA evsB p1 p2 rest rest2 hL1 hL2] at h
      rcases List.mem_append.mp h with h | h
      · rcases List.mem_append.mp h with h | h
        · exact Or.inl (mem1 f h)
        · exact Or.inr (mem2 f h)
      · rcases analysisPhase_events w p1 p2 _ h with ⟨s, hs⟩ | ⟨g, hs⟩ <;> simp at hs

/-- The driver loops never construct a model session. -/
lemma driverLoops_no_sessionCreated (w : World) (inputs : List String) :
    Ev.sessionCreated ∉ (driverLoops w inputs).1 := by
  intro h
  rcases hL1 : inputLoop w prompt1 saved1 "image1.jpg" inputs with ⟨evsA, r1⟩
  have mem1 : Ev.sessionCreated ∉ evsA := fun hg =>
    inputLoop_no_sessionCreated w prompt1 saved1 "image1.jpg" inputs
      (by rw [hL1]; exact hg)
  cases r1 with
  | exited =>
    rw [driverLoops_quit1 w inputs evsA hL1] at h
    exact mem1 h
  | eofErr =>
    rw [driverLoops_eof1 w inputs evsA hL1] at h
    rcases List.mem_append.mp h with h | h
    · exact mem1 h
    · exact absurd (List.mem_singleton.mp h) (by simp)
  | success p1 rest =>
    rcases hL2 : inputLoop w prompt2 saved2 "image2.jpg" rest with ⟨evsB, r2⟩
    have mem2 : Ev.sessionCreated ∉ evsB := fun hg =>
      inputLoop_no_sessionCreated w prompt2 saved2 "image2.jpg" rest
        (by rw [hL2]; exact hg)
    cases r2 with
    | exited =>
      rw [driverLoops_quit2 w inputs evsA evsB p1 rest hL1 hL2] at h
      rcases List.mem_append.mp h with h | h
      · exact mem1 h
      · exact mem2 h
    | eofErr =>
      rw [driverLoops_eof2 w inputs evsA evsB p1 rest hL1 hL2] at h
      rcases List.mem_append.mp h with h | h
      · rcases List.mem_append.mp h with h | h
        · exact mem1 h
        · exact mem2 h
      · exact absurd (List.mem_singleton.mp h) (by simp)
    | success p2 rest2 =>
      rw [driverLoops_success w inputs evsA evsB p1 p2 rest rest2 hL1 hL2] at h
      rcases List.mem_append.mp h with h | h
      · rcases List.mem_append.mp h with h | h
        · exact mem1 h
        · exact mem2 h
      · rcases analysisPhase_events w p1 p2 _ h with ⟨s, hs⟩ | ⟨g, hs⟩ <;> simp at hs

/-- mainRun after a successful pair of downloads. -/
lemma mainRun_success_loops (w : World) (inputs : List String)
    (evsA evsB : List Ev) (p1 p2 : String) (rest1 rest2 : List String)
    (h : w.setupErr = none)
    (h1 : inputLoop w prompt1 saved1 "image1.jpg" inputs
            = (evsA, LoopRes.success p1 rest1))
    (h2 : inputLoop w prompt2 saved2 "image2.jpg" rest1
            = (evsB, LoopRes.success p2 rest2)) :
    mainRun w inputs
      = (Ev.print setupMsg :: Ev.sessionCreated
           :: (evsA ++ evsB ++ (analysisPhase w p1 p2).1),
         (analysisPhase w p1 p2).2) := by
  rw [mainRun_setup_ok w inputs h, driverLoops_success w inputs evsA evsB p1 p2
    rest1 rest2 h1 h2]

/-! ## Claim theorems -/

/-- C1: download_and_validate_image performs no network call and
creates no file when a validator rejects: an invalid URL raises first
with an empty event trace; with a valid URL an invalid extension raises
next, still with an empty trace; and when both validators accept it
delegates to the downloader, returning the filename on success. -/
theorem download_and_validate_image_fails_fast (w : World)
    (url filename : String) :
    (is_valid_url url = false →
      download_and_validate_image w url filename
        = ([], Except.error DLErr.invalidURL))
  ∧ (is_valid_url url = true → validate_file filename = false →
      download_and_validate_image w url filename
        = ([], Except.error DLErr.invalidExt))
  ∧ ((is_valid_url url = false ∨ validate_file filename = false) →
      (download_and_validate_image w url filename).1 = [])
  ∧ (is_valid_url url = true → validate_file filename = true →
      download_and_validate_image w url filename
        = download_file_from_url w url filename
      ∧ (w.http url = none →
          download_and_validate_image w url filename
            = ([Ev.networkCall url, Ev.fileCreated filename],
               Except.ok filename))) := by
  refine ⟨fun h1 => ?_, fun h1 h2 => ?_, fun h => ?_, fun h1 h2 => ⟨?_, fun h3 => ?_⟩⟩
  · simp [download_and_validate_image, h1]
  · simp [download_and_validate_image, h1, h2]
  · rcases h with h | h
    · simp [download_and_validate_image, h]
    · by_cases h1 : is_valid_url url
      · simp [download_and_validate_image, h1, h]
      · simp [download_and_validate_image, h1]
  · simp [download_and_validate_image, h1, h2]
  · simp [download_and_validate_image, download_file_from_url, h1, h2, h3]

/-- C1 witness: concrete applications of the fail-fast branches. -/
theorem download_and_validate_image_fails_fast_witness :
    download_and_validate_image sampleWorld "https://example.com/a.png" "bad.txt"
      = ([], Except.error DLErr.invalidExt) :=
  (download_and_validate_image_fails_fast sampleWorld
    "https://example.com/a.png" "bad.txt").2.1 (by decide) (by decide)

/-- C2: validate_file accepts exactly the filenames whose lowercased
extension is one of .jpg, .jpeg, .png, .gif, independent of the case of
the input. -/
theorem validate_file_iff_allowed_extension :
    (∀ filename : String,
      validate_file filename = true ↔
        lowerStr (splitext filename).2
          ∈ ([".jpg", ".jpeg", ".png", ".gif"] : List String))
  ∧ validate_file "X.JPG" = true ∧ validate_file "x.bmp" = false := by
  refine ⟨fun filename => ?_, by decide, by decide⟩
  simp [validate_file, allowed_extensions]

/-- C3: is_valid_url accepts exactly the strings that parse with a
nonempty scheme and a nonempty netloc; there is no scheme allow-list,
so ftp URLs pass too. -/
theorem is_valid_url_iff_scheme_and_netloc :
    (∀ s : String, is_valid_url s = true ↔
      (urlparse s).scheme ≠ "" ∧ (urlparse s).netloc ≠ "")
  ∧ is_valid_url "not a url" = false
  ∧ is_valid_url "https://example.com/a.png" = true
  ∧ is_valid_url "ftp://example.com/pub/a.png" = true := by
  refine ⟨fun s => ?_, by decide, by decide, by decide⟩
  simp only [is_valid_url, Bool.and_eq_true, Bool.not_eq_true',
    ← Bool.not_eq_true, String.isEmpty_iff]

/-- C4: a stripped, lowercased quit at either URL prompt makes the
driver terminate at once via SystemExit, with no output after the
prompt: at the first prompt nothing was downloaded and no network call
was made, and at the second prompt nothing downloaded so far is cleaned
up. -/
theorem quit_exits_immediately (w : World) (inputs : List String)
    (line : String) (rest : List String)
    (hs : w.setupErr = none)
    (hq : lowerStr (stripStr line) = "quit") :
    (inputs = line :: rest →
       mainRun w inputs
         = ([Ev.print setupMsg, Ev.sessionCreated, Ev.print prompt1], Term.sysExit)
       ∧ (∀ u, Ev.networkCall u ∉ (mainRun w inputs).1)
       ∧ (∀ f, Ev.fileCreated f ∉ (mainRun w inputs).1)
       ∧ (∀ f, Ev.fileDeleted f ∉ (mainRun w inputs).1))
  ∧ (∀ (evsA : List Ev) (p1 : String),
       inputLoop w prompt1 saved1 "image1.jpg" inputs
         = (evsA, LoopRes.success p1 (line :: rest)) →
       mainRun w inputs
         = (Ev.print setupMsg :: Ev.sessionCreated
             :: (evsA ++ [Ev.print prompt2]), Term.sysExit)
       ∧ (∀ f, Ev.fileDeleted f ∉ (mainRun w inputs).1)) := by
  constructor
  · rintro rfl
    have hL : inputLoop w prompt1 saved1 "image1.jpg" (line :: rest)
        = ([Ev.print prompt1], LoopRes.exited) :=
      inputLoop_cons_quit w prompt1 saved1 "image1.jpg" line rest hq
    have hM : mainRun w (line :: rest)
        = ([Ev.print setupMsg, Ev.sessionCreated, Ev.print prompt1],
           Term.sysExit) := by
      rw [mainRun_setup_ok w _ hs, driverLoops_quit1 w _ _ hL]
    refine ⟨hM, ?_, ?_, ?_⟩ <;> intro x <;> rw [hM] <;> simp
  · intro evsA p1 hL1
    have hL2 : inputLoop w prompt2 saved2 "image2.jpg" (line :: rest)
        = ([Ev.print prompt2], LoopRes.exited) :=
      inputLoop_cons_quit w prompt2 saved2 "image2.jpg" line rest hq
    have hM : mainRun w inputs
        = (Ev.print setupMsg :: Ev.sessionCreated
            :: (evsA ++ [Ev.print prompt2]), Term.sysExit) := by
      rw [mainRun_setup_ok w _ hs,
        driverLoops_quit2 w inputs evsA _ p1 (line :: rest) hL1 hL2]
    refine ⟨hM, fun f => ?_⟩
    rw [hM]
    intro hmem
    rcases List.mem_cons.mp hmem with h | h
    · exact Ev.noConfusion h
    rcases List.mem_cons.mp h with h | h
    · exact Ev.noConfusion h
    rcases List.mem_append.mp h with h | h
    · exact inputLoop_no_fileDeleted w prompt1 saved1 "image1.jpg" inputs f
        (by rw [hL1]; exact h)
    · exact Ev.noConfusion (List.mem_singleton.mp h)

/-- C4 witness: quit at the second prompt after one successful
download exits at once, deleting nothing. -/
theorem quit_exits_immediately_witness :
    mainRun sampleWorld ["https://example.com/x.png", "quit"]
      = (Ev.print setupMsg :: Ev.sessionCreated
          :: ([Ev.print prompt1, Ev.networkCall "https://example.com/x.png",
               Ev.fileCreated "image1.jpg", Ev.print (saved1 ++ "image1.jpg")]
              ++ [Ev.print prompt2]),
         Term.sysExit) :=
  ((quit_exits_immediately sampleWorld ["https://example.com/x.png", "quit"]
      "quit" [] rfl (by decide)).2
    [Ev.print prompt1, Ev.networkCall "https://example.com/x.png",
     Ev.fileCreated "image1.jpg", Ev.print (saved1 ++ "image1.jpg")]
    "image1.jpg" (by decide)).1

/-- C5: on a fully successful run both downloaded files are deleted,
after the analysis text is printed and immediately before normal
termination, and the two download paths are the two fixed filenames. -/
theorem success_run_deletes_both_files (w : World) (inputs : List String)
    (evsA evsB : List Ev) (p1 p2 text : String) (rest1 rest2 : List String)
    (hs : w.setupErr = none)
    (h1 : inputLoop w prompt1 saved1 "image1.jpg" inputs
            = (evsA, LoopRes.success p1 rest1))
    (h2 : inputLoop w prompt2 saved2 "image2.jpg" rest1
            = (evsB, LoopRes.success p2 rest2))
    (ha : w.analysis = Except.ok text)
    (hr1 : w.removeErr p1 = none) (hr2 : w.removeErr p2 = none) :
    p1 = "image1.jpg" ∧ p2 = "image2.jpg"
  ∧ mainRun w inputs
      = (Ev.print setupMsg :: Ev.sessionCreated
          :: (evsA ++ evsB
              ++ [Ev.print analyzingMsg, Ev.print "\nImage Analysis:",
                  Ev.print text, Ev.fileDeleted p1, Ev.fileDeleted p2]),
         Term.returned) := by
  have hph : analysisPhase w p1 p2
      = ([Ev.print analyzingMsg, Ev.print "\nImage Analysis:", Ev.print text,
          Ev.fileDeleted p1, Ev.fileDeleted p2], Term.returned) := by
    simp [analysisPhase, ha, hr1, hr2]
  refine ⟨(inputLoop_success w prompt1 saved1 "image1.jpg" inputs
            evsA p1 rest1 h1).1,
          (inputLoop_success w prompt2 saved2 "image2.jpg" rest1
            evsB p2 rest2 h2).1, ?_⟩
  rw [mainRun_success_loops w inputs evsA evsB p1 p2 rest1 rest2 hs h1 h2, hph]

/-- C5 witness: a concrete successful run with both files deleted at
the end. -/
theorem success_run_deletes_both_files_witness :
    mainRun sampleWorld ["https://example.com/a.png", "https://example.com/b.png"]
      = (Ev.print setupMsg :: Ev.sessionCreated
          :: ([Ev.print prompt1, Ev.networkCall "https://example.com/a.png",
               Ev.fileCreated "image1.jpg", Ev.print (saved1 ++ "image1.jpg")]
              ++ [Ev.print prompt2, Ev.networkCall "https://example.com/b.png",
                  Ev.fileCreated "image2.jpg", Ev.print (saved2 ++ "image2.jpg")]
              ++ [Ev.print analyzingMsg, Ev.print "\nImage Analysis:",
                  Ev.print "The images are similar.",
                  Ev.fileDeleted "image1.jpg", Ev.fileDeleted "image2.jpg"]),
         Term.returned) :=
  (success_run_deletes_both_files sampleWorld
    ["https://example.com/a.png", "https://example.com/b.png"]
    [Ev.print prompt1, Ev.networkCall "https://example.com/a.png",
     Ev.fileCreated "image1.jpg", Ev.print (saved1 ++ "image1.jpg")]
    [Ev.print prompt2, Ev.networkCall "https://example.com/b.png",
     Ev.fileCreated "image2.jpg", Ev.print (saved2 ++ "image2.jpg")]
    "image1.jpg" "image2.jpg" "The images are similar."
    ["https://example.com/b.png"] []
    rfl (by decide) (by decide) rfl rfl rfl).2.2

/-- C6: a failed attempt in an input loop is caught inside the loop,
printed with the Error prefix, and the same prompt repeats in the same
state; the loop advances only on a successful download, and there is no
retry bound: any number of failures followed by a success still
succeeds. -/
theorem input_loop_unbounded_retry :
    (∀ (w : World) (pm sm fn line : String) (rest : List String)
        (evs : List Ev) (e : DLErr),
        lowerStr (stripStr line) ≠ "quit" →
        download_and_validate_image w (stripStr line) fn
          = (evs, Except.error e) →
        inputLoop w pm sm fn (line :: rest)
          = (Ev.print pm :: evs
              ++ Ev.print ("Error: " ++ dlErrMsg e)
                :: (inputLoop w pm sm fn rest).1,
             (inputLoop w pm sm fn rest).2))
  ∧ (∀ (w : World) (pm sm fn : String) (inputs : List String)
        (evs : List Ev) (p : String) (rest : List String),
        inputLoop w pm sm fn inputs = (evs, LoopRes.success p rest) →
        Ev.fileCreated fn ∈ evs)
  ∧ (∀ (w : World) (pm sm fn : String) (n : ℕ) (bad good : String)
        (rest : List String) (evs evsG : List Ev) (e : DLErr) (p : String),
        lowerStr (stripStr bad) ≠ "quit" →
        download_and_validate_image w (stripStr bad) fn
          = (evs, Except.error e) →
        lowerStr (stripStr good) ≠ "quit" →
        download_and_validate_image w (stripStr good) fn
          = (evsG, Except.ok p) →
        inputLoop w pm sm fn (List.replicate n bad ++ good :: rest)
          = ((List.replicate n
                (Ev.print pm :: evs
                  ++ [Ev.print ("Error: " ++ dlErrMsg e)])).flatten
              ++ Ev.print pm :: evsG ++ [Ev.print (sm ++ p)],
             LoopRes.success p rest)) := by
  refine ⟨fun w pm sm fn line rest evs e hq h =>
            inputLoop_cons_err w pm sm fn line rest evs e hq h,
          fun w pm sm fn inputs evs p rest h =>
            (inputLoop_success w pm sm fn inputs evs p rest h).2,
          fun w pm sm fn n bad good rest evs evsG e p hqb hb hqg hg => ?_⟩
  induction n with
  | zero =>
    rw [List.replicate_zero, List.nil_append,
      inputLoop_cons_ok w pm sm fn good rest evsG p hqg hg]
    simp
  | succ k ih =>
    rw [List.replicate_succ, List.cons_append,
      inputLoop_cons_err w pm sm fn bad _ evs e hqb hb, ih]
    simp [List.replicate_succ, List.append_assoc]

/-- C6 witness: two invalid attempts then a valid one. -/
theorem input_loop_unbounded_retry_witness :
    inputLoop sampleWorld prompt1 saved1 "image1.jpg"
        ["notaurl", "notaurl", "https://example.com/a.png"]
      = ([Ev.print prompt1, Ev.print "Error: Invalid URL provided",
          Ev.print prompt1, Ev.print "Error: Invalid URL provided",
          Ev.print prompt1, Ev.networkCall "https://example.com/a.png",
          Ev.fileCreated "image1.jpg", Ev.print (saved1 ++ "image1.jpg")],
         LoopRes.success "image1.jpg" []) := by
  have h := input_loop_unbounded_retry.2.2 sampleWorld prompt1 saved1
    "image1.jpg" 2 "notaurl" "https://example.com/a.png" [] []
    [Ev.networkCall "https://example.com/a.png", Ev.fileCreated "image1.jpg"]
    DLErr.invalidURL "image1.jpg" (by decide) (by decide) (by decide) (by decide)
  simpa using h

/-- C7: the top-level handler catches every escaping error, prints it
and swallows it: the exit status is 0 on every run, the first print
always happens, and on the setup-error, analysis-error and
cleanup-error paths the run ends in a printed error line and a normal
return. -/
theorem top_level_handler_catches_all :
    (∀ (w : World) (inputs : List String),
        exitCode (mainRun w inputs).2 = 0
      ∧ (mainRun w inputs).1.head? = some (Ev.print setupMsg))
  ∧ (∀ (w : World) (inputs : List String) (e : String),
        w.setupErr = some e →
        mainRun w inputs
          = ([Ev.print setupMsg, Ev.print ("Error: " ++ e)], Term.returned))
  ∧ (∀ (w : World) (inputs rest1 rest2 : List String) (evsA evsB : List Ev)
        (p1 p2 e : String),
        w.setupErr = none →
        inputLoop w prompt1 saved1 "image1.jpg" inputs
          = (evsA, LoopRes.success p1 rest1) →
        inputLoop w prompt2 saved2 "image2.jpg" rest1
          = (evsB, LoopRes.success p2 rest2) →
        w.analysis = Except.error e →
        mainRun w inputs
          = (Ev.print setupMsg :: Ev.sessionCreated
              :: (evsA ++ evsB
                  ++ [Ev.print analyzingMsg, Ev.print ("Error: " ++ e)]),
             Term.returned))
  ∧ (∀ (w : World) (inputs rest1 rest2 : List String) (evsA evsB : List Ev)
        (p1 p2 text e : String),
        w.setupErr = none →
        inputLoop w prompt1 saved1 "image1.jpg" inputs
          = (evsA, LoopRes.success p1 rest1) →
        inputLoop w prompt2 saved2 "image2.jpg" rest1
          = (evsB, LoopRes.success p2 rest2) →
        w.analysis = Except.ok text →
        w.removeErr p1 = some e →
        mainRun w inputs
          = (Ev.print setupMsg :: Ev.sessionCreated
              :: (evsA ++ evsB
                  ++ [Ev.print analyzingMsg, Ev.print "\nImage Analysis:",
                      Ev.print text, Ev.print ("Error: " ++ e)]),
             Term.returned)) := by
  refine ⟨fun w inputs => ⟨rfl, ?_⟩,
          fun w inputs e h => mainRun_setup_err w inputs e h,
          fun w inputs rest1 rest2 evsA evsB p1 p2 e hs h1 h2 ha => ?_,
          fun w inputs rest1 rest2 evsA evsB p1 p2 text e hs h1 h2 ha hr1 => ?_⟩
  · rcases h : w.setupErr with _ | e
    · rw [mainRun_setup_ok w inputs h]
      rfl
    · rw [mainRun_setup_err w inputs e h]
      rfl
  · have hph : analysisPhase w p1 p2
        = ([Ev.print analyzingMsg, Ev.print ("Error: " ++ e)], Term.returned) := by
      simp [analysisPhase, ha]
    rw [mainRun_success_loops w inputs evsA evsB p1 p2 rest1 rest2 hs h1 h2, hph]
  · have hph : analysisPhase w p1 p2
        = ([Ev.print analyzingMsg, Ev.print "\nImage Analysis:", Ev.print text,
            Ev.print ("Error: " ++ e)], Term.returned) := by
      simp [analysisPhase, ha, hr1]
    rw [mainRun_success_loops w inputs evsA evsB p1 p2 rest1 rest2 hs h1 h2, hph]

/-- C7 witness: a failing setup is printed and the run returns
normally. -/
theorem top_level_handler_catches_all_witness :
    mainRun setupFailWorld []
      = ([Ev.print setupMsg, Ev.print "Error: Invalid API key"],
         Term.returned) :=
  top_level_handler_catches_all.2.1 setupFailWorld [] "Invalid API key" rfl

/-- C8: setup constructs the session bound to the fixed model
identifier with temperature 0.4, top-p 0.99, top-k 0 and 4096 max
output tokens, with the credential read from the environment, and every
run constructs exactly one session when setup succeeds (none when it
raises). -/
theorem setup_api_fixed_config :
    (∀ w : World,
        setup_api w
          = ⟨w.env "API_KEY", "gemini-1.5-flash", 2/5, 99/100, 0, 4096⟩)
  ∧ (∀ (w : World) (inputs : List String),
        w.setupErr = none →
        (mainRun w inputs).1.count Ev.sessionCreated = 1)
  ∧ (∀ (w : World) (inputs : List String) (e : String),
        w.setupErr = some e →
        (mainRun w inputs).1.count Ev.sessionCreated = 0) := by
  refine ⟨fun w => ?_, fun w inputs h => ?_, fun w inputs e h => ?_⟩
  · simp only [setup_api, GenerativeModel.mk.injEq]
    norm_num
  · rw [mainRun_setup_ok w inputs h]
    have h0 : (driverLoops w inputs).1.count Ev.sessionCreated = 0 :=
      List.count_eq_zero.mpr (driverLoops_no_sessionCreated w inputs)
    simp [List.count_cons, h0]
  · rw [mainRun_setup_err w inputs e h]
    simp [List.count_cons]

/-- C8 witness: one session is created on a run that quits at once. -/
theorem setup_api_fixed_config_witness :
    (mainRun sampleWorld ["quit"]).1.count Ev.sessionCreated = 1 :=
  setup_api_fixed_config.2.1 sampleWorld ["quit"] rfl

/-- C9: the invalid-extension branch is unreachable from the driver:
both fixed filenames validate, a validated filename can never produce
the invalid-extension error, and every file the driver creates is one
of the two fixed filenames. -/
theorem invalid_extension_branch_unreachable :
    validate_file "image1.jpg" = true
  ∧ validate_file "image2.jpg" = true
  ∧ (∀ (w : World) (url fn : String),
        validate_file fn = true →
        (download_and_validate_image w url fn).2
          ≠ Except.error DLErr.invalidExt)
  ∧ (∀ (w : World) (inputs : List String) (f : String),
        Ev.fileCreated f ∈ (mainRun w inputs).1 →
        f = "image1.jpg" ∨ f = "image2.jpg") := by
  refine ⟨by decide, by decide, fun w url fn hv => ?_, fun w inputs f h => ?_⟩
  · rcases dvi_cases w url fn with hc | ⟨hvf, hc⟩ | ⟨e, -, hc⟩ | ⟨-, hc⟩ <;>
      rw [hc]
    · simp
    · rw [hv] at hvf
      exact Bool.noConfusion hvf
    · simp
    · simp
  · rcases hse : w.setupErr with _ | e
    · rw [mainRun_setup_ok w inputs hse] at h
      rcases List.mem_cons.mp h with h | h
      · exact absurd h (by simp)
      rcases List.mem_cons.mp h with h | h
      · exact absurd h (by simp)
      exact driverLoops_fileCreated w inputs f h
    · rw [mainRun_setup_err w inputs e hse] at h
      rcases List.mem_cons.mp h with h | h
      · exact absurd h (by simp)
      · exact absurd (List.mem_singleton.mp h) (by simp)

/-- C9 witness: with a validated filename the result is never the
invalid-extension error. -/
theorem invalid_extension_branch_unreachable_witness :
    (download_and_validate_image sampleWorld "notaurl" "image1.jpg").2
      ≠ Except.error DLErr.invalidExt :=
  invalid_extension_branch_unreachable.2.2.1 sampleWorld "notaurl"
    "image1.jpg" (by decide)

/-- C10: when the analysis call raises after both downloads succeeded,
the error goes to the top-level handler, the cleanup statements are
skipped, and neither created file is ever deleted. -/
theorem analysis_error_skips_cleanup (w : World)
    (inputs rest1 rest2 : List String) (evsA evsB : List Ev)
    (p1 p2 e : String)
    (hs : w.setupErr = none)
    (h1 : inputLoop w prompt1 saved1 "image1.jpg" inputs
            = (evsA, LoopRes.success p1 rest1))
    (h2 : inputLoop w prompt2 saved2 "image2.jpg" rest1
            = (evsB, LoopRes.success p2 rest2))
    (ha : w.analysis = Except.error e) :
    mainRun w inputs
      = (Ev.print setupMsg :: Ev.sessionCreated
          :: (evsA ++ evsB
              ++ [Ev.print analyzingMsg, Ev.print ("Error: " ++ e)]),
         Term.returned)
  ∧ Ev.fileCreated "image1.jpg" ∈ (mainRun w inputs).1
  ∧ Ev.fileCreated "image2.jpg" ∈ (mainRun w inputs).1
  ∧ ∀ f, Ev.fileDeleted f ∉ (mainRun w inputs).1 := by
  have hph : analysisPhase w p1 p2
      = ([Ev.print analyzingMsg, Ev.print ("Error: " ++ e)], Term.returned) := by
    simp [analysisPhase, ha]
  have hM : mainRun w inputs
      = (Ev.print setupMsg :: Ev.sessionCreated
          :: (evsA ++ evsB
              ++ [Ev.print analyzingMsg, Ev.print ("Error: " ++ e)]),
         Term.returned) := by
    rw [mainRun_success_loops w inputs evsA evsB p1 p2 rest1 rest2 hs h1 h2,
      hph]
  have hc1 : Ev.fileCreated "image1.jpg" ∈ evsA :=
    (inputLoop_success w prompt1 saved1 "image1.jpg" inputs evsA p1 rest1 h1).2
  have hc2 : Ev.fileCreated "image2.jpg" ∈ evsB :=
    (inputLoop_success w prompt2 saved2 "image2.jpg" rest1 evsB p2 rest2 h2).2
  refine ⟨hM, ?_, ?_, fun f => ?_⟩
  · rw [hM]
    exact List.mem_cons_of_mem _ (List.mem_cons_of_mem _
      (List.mem_append_left _ (List.mem_append_left _ hc1)))
  · rw [hM]
    exact List.mem_cons_of_mem _ (List.mem_cons_of_mem _
      (List.mem_append_left _ (List.mem_append_right _ hc2)))
  · rw [hM]
    intro hmem
    rcases List.mem_cons.mp hmem with h | h
    · exact Ev.noConfusion h
    rcases List.mem_cons.mp h with h | h
    · exact Ev.noConfusion h
    rcases List.mem_append.mp h with h | h
    · rcases List.mem_append.mp h with h | h
      · exact inputLoop_no_fileDeleted w prompt1 saved1 "image1.jpg" inputs f
          (by rw [h1]; exact h)
      · exact inputLoop_no_fileDeleted w prompt2 saved2 "image2.jpg" rest1 f
          (by rw [h2]; exact h)
    · rcases List.mem_cons.mp h with h | h
      · exact Ev.noConfusion h
      · exact Ev.noConfusion (List.mem_singleton.mp h)

/-- C10 witness: a concrete run whose analysis fails leaves both files
in place. -/
theorem analysis_error_skips_cleanup_witness :
    mainRun analysisFailWorld
        ["https://example.com/a.png", "https://example.com/b.png"]
      = (Ev.print setupMsg :: Ev.sessionCreated
          :: ([Ev.print prompt1, Ev.networkCall "https://example.com/a.png",
               Ev.fileCreated "image1.jpg", Ev.print (saved1 ++ "image1.jpg")]
              ++ [Ev.print prompt2, Ev.networkCall "https://example.com/b.png",
                  Ev.fileCreated "image2.jpg", Ev.print (saved2 ++ "image2.jpg")]
              ++ [Ev.print analyzingMsg, Ev.print "Error: quota exceeded"]),
         Term.returned) :=
  (analysis_error_skips_cleanup analysisFailWorld
    ["https://example.com/a.png", "https://example.com/b.png"]
    ["https://example.com/b.png"] []
    [Ev.print prompt1, Ev.networkCall "https://example.com/a.png",
     Ev.fileCreated "image1.jpg", Ev.print (saved1 ++ "image1.jpg")]
    [Ev.print prompt2, Ev.networkCall "https://example.com/b.png",
     Ev.fileCreated "image2.jpg", Ev.print (saved2 ++ "image2.jpg")]
    "image1.jpg" "image2.jpg" "quota exceeded"
    rfl (by decide) (by decide) rfl).1

end ImageCompare
